import Mathlib

/-!
Shallow embedding of `src/unix/vncpasswd/vncpasswd.c` (TurboVNC's standalone
password utility).  C strings are modelled as `List Char` holding the bytes
before the terminating NUL (lines read from streams are assumed NUL-free, as
in any ordinary text stream).  Stream reads (`fgets`, `getpass`) are modelled
by passing the sequence of results the C calls would return; filesystem and
display-server calls are modelled by passing their results explicitly and by
recording the calls the code makes in an event trace.
-/

/-- The value of the `MAXPWLEN` macro (from `vncauth.h`): 8. -/
def MAXPWLEN : Nat := 8

/-- Strip the line terminator, as `vncpasswd.c` does with
`strchr(passwd, '\n')` followed by `*ptr = '\0'` (lines 482-484). -/
def stripNewline (s : List Char) : List Char :=
  s.takeWhile (fun c => c ≠ '\n')

/-- Outcome of one `read_password` call (lines 472-497).  `ok` is the C return
value (1 = success, 0 = error); `result` is the content of the caller's 9-byte
buffer after the call (on success); `warned` records whether the truncation
warning was printed to stderr. -/
structure ReadResult where
  ok : Bool
  result : List Char
  warned : Bool
deriving DecidableEq, Repr

/-- `read_password` (lines 472-497).  `fgetsRes` is what `fgets(passwd, 256,
stdin)` returns: `none` for NULL (end of stream), `some line` for a read line
(including a trailing newline when one was read).  The code strips the
newline, truncates to 8 bytes with a warning when longer (lines 487-490), and
copies the result out. -/
def read_password (fgetsRes : Option (List Char)) : ReadResult :=
  match fgetsRes with
  | none => ⟨false, [], false⟩
  | some line =>
    let passwd := stripNewline line
    let warned : Bool := decide (8 < passwd.length)
    ⟨true, passwd.take MAXPWLEN, warned⟩

/-- Outcome of one `ask_password` call (lines 506-544).
`copyResidual` is the content of the local `passwd_copy` buffer at the moment
the function returns, `getpassResidual` the content of `getpass`'s static
buffer at that moment, and `warnCount` how many truncation warnings were
printed.  `undefinedBehavior` marks the path where `getpass` returns NULL at
the Verify prompt, on which the C code calls `strlen(NULL)`. -/
inductive AskOutcome where
  | outOfInput
  | undefinedBehavior
  | failed (copyResidual : List Char) (getpassResidual : List Char)
      (warnCount : Nat)
  | success (result : List Char) (copyResidual : List Char)
      (getpassResidual : List Char) (warnCount : Nat)
deriving DecidableEq, Repr

/-- `ask_password` (lines 506-544).  `inputs` is the sequence of `getpass`
results (`none` = NULL return, e.g. not a tty).  `copy` and `gbuf` are the
current contents of `passwd_copy` and of `getpass`'s static buffer (garbage
on entry: `passwd_copy` is an uninitialized local).  Per loop iteration the
code: reads a password, fails hard on NULL or length < 6, truncates to 8
bytes with a warning when longer (lines 521-524), saves it in `passwd_copy`,
reads the verification, truncates it to 8 bytes silently (lines 529-530),
and on `strcmp` equality copies it out and zeroes both buffers (lines
539-541); on mismatch it loops.  The early `return 0` paths zero nothing. -/
def ask_password : List (Option (List Char)) → List Char → List Char → Nat →
    AskOutcome
  | [], _, _, _ => .outOfInput
  | none :: _, copy, gbuf, w => .failed copy gbuf w
  | some p :: rest, copy, _gbuf, w =>
    if p.length < 6 then .failed copy p w
    else
      let w' := if 8 < p.length then w + 1 else w
      let p8 := p.take MAXPWLEN
      match rest with
      | [] => .outOfInput
      | none :: _ => .undefinedBehavior
      | some v :: rest' =>
        let v8 := v.take MAXPWLEN
        if v8 = p8 then .success v8 [] [] w'
        else ask_password rest' p8 v8 w'

/-! ## Directory guard: `mkdir_and_check` (lines 429-462) -/

/-- The fields of `struct stat` that `mkdir_and_check` inspects:
`S_ISDIR(st_mode)`, `st_uid`, and the permission bits of `st_mode`. -/
structure Stat where
  st_isdir : Bool
  st_uid : Nat
  st_mode : Nat
deriving DecidableEq, Repr

/-- `errno` value for a missing path. -/
def ENOENT : Nat := 2

/-- Owner read/write/execute permission bits (0700 octal). -/
def S_IRWXU : Nat := 448

/-- Group read/write/execute permission bits (0070 octal). -/
def S_IRWXG : Nat := 56

/-- Other read/write/execute permission bits (0007 octal). -/
def S_IRWXO : Nat := 7

instance {ε α : Type} [DecidableEq ε] [DecidableEq α] :
    DecidableEq (Except ε α) := fun x y =>
  match x, y with
  | .error e, .error f =>
    if h : e = f then isTrue (by rw [h]) else isFalse (by simp [h])
  | .error _, .ok _ => isFalse (by simp)
  | .ok _, .error _ => isFalse (by simp)
  | .ok a, .ok b =>
    if h : a = b then isTrue (by rw [h]) else isFalse (by simp [h])

/-- The filesystem answers `mkdir_and_check` can observe, passed in
explicitly: the result of the first `lstat` (line 433), of `mkdir` (line 439,
consulted only when the first `lstat` failed with `ENOENT`), and of the
second `lstat` (line 446).  The two `lstat` results are independent, so
concurrent filesystem changes between the calls are representable. -/
structure Fs where
  lstat1 : Except Nat Stat
  mkdirRes : Except Nat Unit
  lstat2 : Except Nat Stat
deriving DecidableEq, Repr

/-- Identity of the running process: `ruid` is what `getuid()` returns,
`euid` what `geteuid()` would return.  `vncpasswd.c` line 454 calls
`getuid()`. -/
structure ProcIds where
  ruid : Nat
  euid : Nat
deriving DecidableEq, Repr

/-- How `mkdir_and_check` terminates: `ok` returns to the caller, each
`fatal*` constructor is one of the `exit(1)` sites, in source order. -/
inductive GuardResult where
  | ok
  | fatalLstat1
  | fatalMkdir
  | fatalLstat2
  | fatalNotDir
  | fatalBadOwner
  | fatalBadMode
deriving DecidableEq, Repr

/-- Result of a `mkdir_and_check` run plus the mode argument of every
`mkdir` call it made. -/
structure GuardRun where
  result : GuardResult
  mkdirCalls : List Nat
deriving DecidableEq, Repr

/-- Checks of `mkdir_and_check` lines 446-461: the second (re-inspection)
`lstat`, then `S_ISDIR`, then `st_uid != getuid()`, then (if `be_strict`)
`(S_IRWXG | S_IRWXO) & st_mode`. -/
def mkdir_and_check_verify (fs : Fs) (ids : ProcIds) (be_strict : Bool) :
    GuardResult :=
  match fs.lstat2 with
  | .error _ => .fatalLstat2
  | .ok st =>
    if st.st_isdir = false then .fatalNotDir
    else if st.st_uid ≠ ids.ruid then .fatalBadOwner
    else if be_strict && ((S_IRWXG ||| S_IRWXO) &&& st.st_mode ≠ 0) then
      .fatalBadMode
    else .ok

/-- `mkdir_and_check` (lines 429-462): first `lstat` without following
symlinks; a failure other than `ENOENT` is fatal; on `ENOENT` the directory
is created with `mkdir(dirname, S_IRWXU)` (fatal on failure); then the path
is re-inspected and verified. -/
def mkdir_and_check (fs : Fs) (ids : ProcIds) (be_strict : Bool) : GuardRun :=
  match fs.lstat1 with
  | .error e =>
    if e ≠ ENOENT then ⟨.fatalLstat1, []⟩
    else
      match fs.mkdirRes with
      | .error _ => ⟨.fatalMkdir, [S_IRWXU]⟩
      | .ok _ => ⟨mkdir_and_check_verify fs ids be_strict, [S_IRWXU]⟩
  | .ok _ => ⟨mkdir_and_check_verify fs ids be_strict, []⟩

/-! ## OTP issuance: `DoOTP` (lines 68-151) -/

/-- Little-endian base-10 digits of `n`, with explicit structural fuel so
that the definition evaluates by kernel reduction; `digitsRev f n` is the
digit list of `n` whenever `n < 10 ^ f`. -/
def digitsRev : Nat → Nat → List Nat
  | 0, _ => []
  | fuel + 1, n => if n = 0 then [] else n % 10 :: digitsRev fuel (n / 10)

/-- Decimal rendering of a 32-bit value as ASCII characters (most
significant digit first), as `printf`-family `%u` produces: fuel 10 covers
every value below `10 ^ 10 > 2 ^ 32`. -/
def decDigits (n : Nat) : List Char :=
  if n = 0 then ['0']
  else ((digitsRev 10 n).reverse.map (fun d => Char.ofNat (48 + d)))

/-- `snprintf(buf, MAXPWLEN + 1, "%08u", v)` (lines 124 and 130): the
`%08u` conversion zero-pads the decimal form of `v` to a minimum width of 8,
and the size bound 9 makes `snprintf` keep only the first 8 characters of
that rendering. -/
def decimal8 (v : Nat) : List Char :=
  (List.replicate (8 - (decDigits v).length) '0' ++ decDigits v).take 8

/-- Numeric value of a big-endian ASCII digit string (the reading an 8-digit
OTP denotes). -/
def digitsVal (s : List Char) : Nat :=
  s.foldl (fun a c => 10 * a + (c.toNat - 48)) 0

/-- Display-server calls `DoOTP` makes, in order: `XOpenDisplay`,
`XChangeProperty` with the property name and payload, `XCloseDisplay`. -/
inductive OtpEvent where
  | connect
  | changeProperty (nm : String) (payload : List Char)
  | closeDisplay
deriving DecidableEq, Repr

/-- Observable outcome of a `DoOTP` run: the C return value, the trace of
display-server calls, the values printed to stderr (lines 126 and 132), and
the contents of the local buffers `buf` and `bytes` when the function
returns. -/
structure OtpRun where
  result : Nat
  events : List OtpEvent
  printedFull : Option (List Char)
  printedView : Option (List Char)
  bufFinal : List Char
  bytesFinal : List Char
deriving DecidableEq, Repr

/-- `DoOTP` (lines 68-151), success path of the entropy read.  `displayOpens`
is whether `XOpenDisplay` succeeds, `atomExists` whether `XInternAtom`
resolves `VNC_OTP`; `full`/`view` are the random 32-bit values drawn (lines
105-106 or 119-121); `buf0`/`bytes0` are the garbage initial contents of the
uninitialized locals `buf` and `bytes`.  In clear mode `len = 0` and neither
buffer is written before the property write; otherwise each value is
formatted into `buf` with `snprintf "%08u"` and copied into `bytes` (lines
124-135).  After `XChangeProperty`, `memset(bytes, 0, sizeof(bytes))`
zeroes `bytes` (line 148) - and only `bytes`. -/
def DoOTP (otpClear alsoView : Bool) (displayOpens atomExists : Bool)
    (full view : Nat) (buf0 bytes0 : List Char) : OtpRun :=
  if displayOpens = false then
    ⟨1, [.connect], none, none, buf0, bytes0⟩
  else if atomExists = false then
    ⟨1, [.connect], none, none, buf0, bytes0⟩
  else if otpClear then
    ⟨0, [.connect, .changeProperty "VNC_OTP" [], .closeDisplay],
      none, none, buf0, List.replicate 16 (Char.ofNat 0)⟩
  else if alsoView then
    ⟨0, [.connect,
         .changeProperty "VNC_OTP" (decimal8 full ++ decimal8 view),
         .closeDisplay],
      some (decimal8 full), some (decimal8 view),
      decimal8 view, List.replicate 16 (Char.ofNat 0)⟩
  else
    ⟨0, [.connect, .changeProperty "VNC_OTP" (decimal8 full), .closeDisplay],
      some (decimal8 full), none,
      decimal8 full, List.replicate 16 (Char.ofNat 0)⟩

/-! ## ACL issuance: `DoUserList` (lines 160-196) -/

/-- The value of the `MAXUSERLEN` macro: 63. -/
def MAXUSERLEN : Nat := 63

/-- Display-server calls `DoUserList` makes. -/
inductive AclEvent where
  | connect
  | changeProperty (nm : String) (payload : List Nat)
  | closeDisplay
deriving DecidableEq, Repr

/-- How `DoUserList` terminates, in source order of the return sites. -/
inductive AclResult where
  | errMissingUser
  | errUserTooLong
  | errOpenDisplay
  | errNoAtom
  | ok
deriving DecidableEq, Repr

/-- `DoUserList` (lines 160-196).  `user` is the global `user` pointer
(`none` = NULL), holding raw username bytes; `addUser`/`alsoView` the global
flags.  A NULL or empty username and a username longer than `MAXUSERLEN`
are rejected (lines 167-175) before `XOpenDisplay` is called; otherwise the
payload is one flag byte `addUser | (alsoView ? 0x10 : 0x00)` followed by
the username bytes (lines 190-193). -/
def DoUserList (user : Option (List Nat)) (addUser alsoView : Bool)
    (displayOpens atomExists : Bool) : AclResult × List AclEvent :=
  match user with
  | none => (.errMissingUser, [])
  | some u =>
    if u.length = 0 then (.errMissingUser, [])
    else if MAXUSERLEN < u.length then (.errUserTooLong, [])
    else if displayOpens = false then (.errOpenDisplay, [.connect])
    else if atomExists = false then (.errNoAtom, [.connect])
    else
      (.ok, [.connect,
             .changeProperty "VNC_ACL"
               (((if addUser then 1 else 0) |||
                 (if alsoView then 16 else 0)) :: u),
             .closeDisplay])

/-! ## `main` (lines 199-391) -/

/-- `getenv_safe` (lines 407-421): NULL or over-long environment values are
fatal (`exit(1)`); otherwise the value is returned. -/
def getenv_safe (val : Option String) (maxlen : Nat) : Except String String :=
  match val with
  | none => .error "no environment variable"
  | some s =>
    if maxlen < s.length then .error "environment variable string too long"
    else .ok s

/-- `strncmp(s, "/tmp", 4) == 0` (lines 291 and 310): true exactly when the
first four bytes of `s` are `/tmp` (a NUL inside the first four bytes stops
the comparison with a mismatch, which `take` reproduces on the
before-the-NUL byte list). -/
def startsWithTmp (s : String) : Bool := s.data.take 4 = "/tmp".data

/-- The mode state `main`'s flag loop (lines 215-283) accumulates: the
globals `displayname`, `otp`, `otpClear`, `userList`, `addUser`, `user`,
`alsoView` and the locals `read_from_stdin`, `make_directory`,
`check_strictly`, `passwdDir`, `passwdFile`. -/
structure Config where
  displayname : Option String
  otp : Bool
  otpClear : Bool
  userList : Bool
  addUser : Bool
  user : Option String
  alsoView : Bool
  read_from_stdin : Bool
  make_directory : Bool
  check_strictly : Bool
  passwdDir : String
  passwdFile : String
deriving DecidableEq, Repr

/-- State at entry of the flag loop (lines 199-213): `sprintf(passwdDir,
"%s/.vnc", getenv_safe("HOME", 240))` and `sprintf(passwdFile, "%s/passwd",
passwdDir)`; every flag variable starts cleared except `make_directory`. -/
def initConfig (home : String) : Config :=
  { displayname := none
    otp := false
    otpClear := false
    userList := false
    addUser := false
    user := none
    alsoView := false
    read_from_stdin := false
    make_directory := true
    check_strictly := false
    passwdDir := home ++ "/.vnc"
    passwdFile := home ++ "/.vnc" ++ "/passwd" }

/-- Result of the flag loop: `usage` is the `usage(argv)` call (prints usage
and exits 1), `fatalEnv` a `getenv_safe` failure while handling `-t`,
`done cfg rest` normal completion with the arguments not consumed by the
loop (the loop breaks at the first argument not starting with a dash). -/
inductive ParseResult where
  | usage
  | fatalEnv (msg : String)
  | done (cfg : Config) (rest : List String)
deriving DecidableEq, Repr

/-- The flag loop (lines 215-283).  Dispatch is on `argv[i][1]` only (so any
argument starting with the same two characters selects the same case), with
`-display` additionally requiring an exact `strcmp` match; `-display`, `-a`
and `-r` consume the following argument and call `usage` when it is
missing. -/
def parseLoop (envUSER : Option String) : List String → Config → ParseResult
  | [], cfg => .done cfg []
  | a :: rest, cfg =>
    if a.data.head? ≠ some '-' then .done cfg (a :: rest)
    else
      match (a.data.drop 1).head? with
      | none => .usage
      | some c =>
        match c with
        | 'd' =>
          if a = "-display" then
            match rest with
            | [] => .usage
            | d :: rest' => parseLoop envUSER rest' { cfg with displayname := some d }
          else .usage
        | 'c' =>
          parseLoop envUSER rest
            { cfg with make_directory := false, otp := true, otpClear := true }
        | 'o' =>
          parseLoop envUSER rest { cfg with make_directory := false, otp := true }
        | 'a' =>
          match rest with
          | [] => .usage
          | u :: rest' =>
            parseLoop envUSER rest'
              { cfg with user := some u, make_directory := false,
                         userList := true, addUser := true }
        | 'r' =>
          match rest with
          | [] => .usage
          | u :: rest' =>
            parseLoop envUSER rest'
              { cfg with user := some u, make_directory := false,
                         userList := true, addUser := false }
        | 'f' =>
          parseLoop envUSER rest
            { cfg with passwdFile := "-", read_from_stdin := true,
                       make_directory := false, check_strictly := false }
        | 't' =>
          match getenv_safe envUSER 32 with
          | .error m => .fatalEnv m
          | .ok u =>
            parseLoop envUSER rest
              { cfg with passwdDir := "/tmp/" ++ u ++ "-vnc",
                         passwdFile := "/tmp/" ++ u ++ "-vnc" ++ "/passwd",
                         read_from_stdin := false, make_directory := true,
                         check_strictly := true }
        | 'v' => parseLoop envUSER rest { cfg with alsoView := true }
        | _ => .usage

/-- Where `main` ends up after the flag loop and the mode checks (lines
285-341): `usage` and `fatal` exit non-zero having read no password, created
no directory and written no property; `runOTP` reaches `exit(DoOTP())`
(line 301), `runACL` reaches `exit(DoUserList())` (line 320), and
`runPasswd` proceeds to the password-provisioning pipeline with the final
values of its mode variables. -/
inductive MainOutcome where
  | usage
  | fatal (msg : String)
  | runOTP (otpClear alsoView : Bool) (displayname : Option String)
  | runACL (addUser alsoView : Bool) (user : Option String)
      (displayname : Option String)
  | runPasswd (read_from_stdin make_directory check_strictly alsoView : Bool)
      (passwdDir passwdFile : String)
deriving DecidableEq, Repr

/-- The mode checks after the flag loop: the `otp` incompatibility checks
(lines 285-302), the `userList` incompatibility checks (lines 304-321) and
the positional file-name argument handling (lines 323-336); `rest` is the
arguments the flag loop did not consume (`argv[i..]`). -/
def vncpasswd_dispatch (cfg : Config) (rest : List String) : MainOutcome :=
  if cfg.otp then
        if cfg.read_from_stdin then .fatal "-f is incompatible with -o"
        else if startsWithTmp cfg.passwdDir then
          .fatal "-t is incompatible with -o"
        else if cfg.userList then .fatal "-a and -r are incompatible with -o"
        else .runOTP cfg.otpClear cfg.alsoView cfg.displayname
      else if cfg.userList then
        if cfg.read_from_stdin then .fatal "-f is incompatible with -a and -r"
        else if startsWithTmp cfg.passwdDir then
          .fatal "-t is incompatible with -a and -r"
        else .runACL cfg.addUser cfg.alsoView cfg.user cfg.displayname
      else
        match rest with
        | [] =>
          .runPasswd cfg.read_from_stdin cfg.make_directory cfg.check_strictly
            cfg.alsoView cfg.passwdDir cfg.passwdFile
        | fname :: _ =>
          if 262 < fname.length then .fatal "file name too long"
          else if cfg.read_from_stdin then
            .fatal "cannot specify filename with -f"
          else
            .runPasswd false false false cfg.alsoView cfg.passwdDir fname

/-- `main` up to mode dispatch (lines 199-341): `getenv_safe("HOME", 240)`,
the flag loop, then the mode checks of `vncpasswd_dispatch`. -/
def vncpasswd_main (args : List String) (envHOME envUSER : Option String) :
    MainOutcome :=
  match getenv_safe envHOME 240 with
  | .error m => .fatal m
  | .ok home =>
    match parseLoop envUSER args (initConfig home) with
    | .usage => .usage
    | .fatalEnv m => .fatal m
    | .done cfg rest => vncpasswd_dispatch cfg rest

/-- Whether `main` stops at this outcome with `exit(1)` (usage or a fatal
check) - exiting before any password is read, any directory is created and
any property is written. -/
def isErrorExit : MainOutcome → Bool
  | .usage => true
  | .fatal _ => true
  | _ => false

/-- The batch-mode read phase (lines 345-354): one `read_password` into
`passwd1` (failure is fatal), then one into `passwd2` (failure just leaves
`passwd2_ptr` NULL).  `lines` is the remaining stdin content as the
successive `fgets` results; the value is `none` for the fatal path, else
the primary password and the optional secondary password. -/
def main_batch (lines : List (List Char)) :
    Option (List Char × Option (List Char)) :=
  let r1 := read_password lines.head?
  if r1.ok then
    let r2 := read_password (lines.drop 1).head?
    some (r1.result, if r2.ok then some r2.result else none)
  else none

/-- `strchr(s, c) != NULL` for a string literal `s`: the terminating NUL is
part of the searched string, so `strchr` also finds `c = '\0'`. -/
def strchr_found (s : List Char) (c : Char) : Bool :=
  (s ++ [Char.ofNat 0]).contains c

/-- The view-only question (lines 369-371): `fgets(yesno, 2, stdin) != NULL
&& strchr("Yy", yesno[0]) != NULL`.  `ans` is the first byte `fgets` stored
(`none` when `fgets` returned NULL at end of stream). -/
def view_only_answer (ans : Option Char) : Bool :=
  match ans with
  | none => false
  | some c => strchr_found ['Y', 'y'] c

/-! ## Helper lemmas about the decimal formatting -/

theorem digitsRev_mem_lt (f : Nat) : ∀ n d, d ∈ digitsRev f n → d < 10 := by
  induction f with
  | zero => intro n d h; simp [digitsRev] at h
  | succ f ih =>
    intro n d h
    rw [digitsRev] at h
    by_cases h0 : n = 0
    · simp [h0] at h
    · rw [if_neg h0] at h
      rcases List.mem_cons.mp h with h1 | h1
      · subst h1; exact Nat.mod_lt _ (by omega)
      · exact ih _ _ h1

theorem digitsRev_length_le_pow (f : Nat) : ∀ k n, n < 10 ^ k →
    (digitsRev f n).length ≤ k := by
  induction f with
  | zero => intro k n _; simp [digitsRev]
  | succ f ih =>
    intro k n h
    rw [digitsRev]
    by_cases h0 : n = 0
    · simp [h0]
    · rw [if_neg h0]
      match k with
      | 0 => omega
      | k + 1 =>
        have : n / 10 < 10 ^ k := by
          rw [Nat.div_lt_iff_lt_mul (by omega)]
          calc n < 10 ^ (k + 1) := h
          _ = 10 ^ k * 10 := by ring
        simpa using ih k (n / 10) this

theorem digitsRev_foldr (f : Nat) : ∀ n, n < 10 ^ f →
    List.foldr (fun d a => 10 * a + d) 0 (digitsRev f n) = n := by
  induction f with
  | zero => intro n h; simp [digitsRev]; omega
  | succ f ih =>
    intro n h
    rw [digitsRev]
    by_cases h0 : n = 0
    · simp [h0]
    · rw [if_neg h0]
      have hd : n / 10 < 10 ^ f := by
        rw [Nat.div_lt_iff_lt_mul (by omega)]
        calc n < 10 ^ (f + 1) := h
        _ = 10 ^ f * 10 := by ring
      simp only [List.foldr_cons, ih (n / 10) hd]
      omega

theorem char_digit_toNat (d : Nat) (h : d < 10) :
    (Char.ofNat (48 + d)).toNat = 48 + d := by
  interval_cases d <;> decide

theorem foldr_digits_map : ∀ (l : List Nat), (∀ d ∈ l, d < 10) →
    List.foldr (fun c a => 10 * a + (c.toNat - 48)) 0
      (l.map fun d => Char.ofNat (48 + d)) =
    List.foldr (fun d a => 10 * a + d) 0 l := by
  intro l hl
  induction l with
  | nil => rfl
  | cons d l ih =>
    simp only [List.map_cons, List.foldr_cons]
    rw [ih (fun x hx => hl x (List.mem_cons_of_mem _ hx))]
    rw [char_digit_toNat d (hl d (List.mem_cons_self _ _))]
    omega

theorem digitsVal_decDigits (n : Nat) (h : n < 10 ^ 10) :
    digitsVal (decDigits n) = n := by
  by_cases h0 : n = 0
  · subst h0; decide
  · unfold decDigits digitsVal
    rw [if_neg h0, List.map_reverse, List.foldl_reverse]
    rw [foldr_digits_map _ (digitsRev_mem_lt 10 n)]
    exact digitsRev_foldr 10 n h

theorem digitsVal_pad (k : Nat) : ∀ l, digitsVal (List.replicate k '0' ++ l) =
    digitsVal l := by
  induction k with
  | zero => intro l; simp
  | succ k ih =>
    intro l
    unfold digitsVal at *
    rw [List.replicate_succ, List.cons_append, List.foldl_cons]
    have : 10 * 0 + ('0'.toNat - 48) = 0 := by decide
    rw [this, ih l]

theorem decDigits_length_le (n k : Nat) (h : n < 10 ^ k) (hk : 1 ≤ k) :
    (decDigits n).length ≤ k := by
  by_cases h0 : n = 0
  · simp [decDigits, h0]; omega
  · unfold decDigits
    rw [if_neg h0]
    simpa using digitsRev_length_le_pow 10 k n h

theorem digitsVal_decimal8 (n : Nat) (h : n < 10 ^ 8) :
    digitsVal (decimal8 n) = n := by
  unfold decimal8
  have hlen : (decDigits n).length ≤ 8 := decDigits_length_le n 8 h (by omega)
  rw [List.take_of_length_le (by simp; omega)]
  rw [digitsVal_pad]
  exact digitsVal_decDigits n (lt_trans h (by norm_num))

theorem decimal8_length (n : Nat) : (decimal8 n).length = 8 := by
  unfold decimal8
  have h1 : 1 ≤ (decDigits n).length := by
    unfold decDigits
    by_cases h0 : n = 0
    · simp [h0]
    · rw [if_neg h0]
      rw [digitsRev]
      rw [if_neg h0]
      simp
  simp
  omega

theorem digitsRev_length_gt (f : Nat) : ∀ k n, 10 ^ k ≤ n → n < 10 ^ f →
    k < (digitsRev f n).length := by
  induction f with
  | zero =>
    intro k n hk h
    have : 1 ≤ 10 ^ k := Nat.one_le_pow _ _ (by omega)
    omega
  | succ f ih =>
    intro k n hk h
    have h0 : n ≠ 0 := by
      have : 1 ≤ 10 ^ k := Nat.one_le_pow _ _ (by omega)
      omega
    rw [digitsRev, if_neg h0]
    match k with
    | 0 => simp
    | k + 1 =>
      have hdiv : 10 ^ k ≤ n / 10 := by
        rw [Nat.le_div_iff_mul_le (by omega)]
        calc 10 ^ k * 10 = 10 ^ (k + 1) := by ring
        _ ≤ n := hk
      have hlt : n / 10 < 10 ^ f := by
        rw [Nat.div_lt_iff_lt_mul (by omega)]
        calc n < 10 ^ (f + 1) := h
        _ = 10 ^ f * 10 := by ring
      have := ih k (n / 10) hdiv hlt
      simpa using this

theorem decimal8_high (n : Nat) (h : 10 ^ 8 ≤ n) (h10 : n < 10 ^ 10) :
    decimal8 n = (decDigits n).take 8 := by
  unfold decimal8
  have h0 : n ≠ 0 := by
    have : (1 : Nat) ≤ 10 ^ 8 := Nat.one_le_pow _ _ (by omega)
    omega
  have hlen : 8 < (decDigits n).length := by
    unfold decDigits
    rw [if_neg h0]
    simpa using digitsRev_length_gt 10 8 n h h10
  have : 8 - (decDigits n).length = 0 := by omega
  rw [this]
  simp

theorem decimal8_digits (n : Nat) : ∀ c ∈ decimal8 n,
    48 ≤ c.toNat ∧ c.toNat ≤ 57 := by
  intro c hc
  have hc2 := List.mem_of_mem_take hc
  rcases List.mem_append.mp hc2 with h1 | h1
  · have := List.eq_of_mem_replicate h1
    subst this; decide
  · unfold decDigits at h1
    by_cases h0 : n = 0
    · rw [if_pos h0] at h1
      simp at h1; subst h1; decide
    · rw [if_neg h0] at h1
      rw [List.map_reverse] at h1
      have h2 := List.mem_reverse.mp h1
      rcases List.mem_map.mp h2 with ⟨d, hd, rfl⟩
      have hd10 := digitsRev_mem_lt 10 n d hd
      rw [char_digit_toNat d hd10]
      omega

/-! ## Facts about `main`, shared by several results below -/

/-- Evaluation of `vncpasswd_main` once `HOME` is known to be present and
short enough. -/
theorem vncpasswd_main_ok (args : List String) (envHOME envUSER : Option String)
    (home : String) (hh : getenv_safe envHOME 240 = .ok home) :
    vncpasswd_main args envHOME envUSER =
      match parseLoop envUSER args (initConfig home) with
      | .usage => .usage
      | .fatalEnv m => .fatal m
      | .done cfg rest => vncpasswd_dispatch cfg rest := by
  unfold vncpasswd_main
  rw [hh]

/-- Appending to a string whose first four bytes are `/tmp` keeps the
`strncmp(.., "/tmp", 4)` test true. -/
theorem startsWithTmp_append (home s : String)
    (h : home.data.take 4 = "/tmp".data) :
    startsWithTmp (home ++ s) = true := by
  have hlen : 4 ≤ home.data.length := by
    have h1 := congrArg List.length h
    rw [List.length_take] at h1
    have h2 : ("/tmp".data).length = 4 := rfl
    omega
  unfold startsWithTmp
  rw [decide_eq_true_eq, String.data_append, List.take_append_eq_append_take,
    h, Nat.sub_eq_zero_of_le hlen]
  simp

/-! ## C1 -/

/-- C1: the claim that on every failing run of password acquisition every
partial secret captured before the failure has been zeroed is CONTRADICTED
by `ask_password`: on the `getpass` result sequence "abcdefgh", "abcdefgx"
(a confirmation mismatch, which restarts the loop with `passwd_copy`
holding "abcdefgh"), then NULL, the function returns failure (0) while
`passwd_copy` still holds the captured secret "abcdefgh" (and `getpass`'s
buffer still holds "abcdefgx"): the zeroing memsets at lines 540-541 run
only on the success path, never on the early `return 0` paths. -/
theorem ask_password_failure_residue :
    ask_password [some "abcdefgh".data, some "abcdefgx".data, none] [] [] 0 =
      .failed "abcdefgh".data "abcdefgx".data 0 ∧
    "abcdefgh".data ≠ ([] : List Char) ∧
    "abcdefgx".data ≠ ([] : List Char) := by
  decide

/-! ## C2 -/

/-- C2 counterexample: an interactive run whose confirmation (Verify) input
"abcdefghZZZ" has 11 meaningful bytes succeeds with zero truncation
warnings emitted: lines 529-530 truncate the confirmation input silently,
so the claim that a truncation warning is emitted for every over-long
input "including the confirmation prompt" is false. -/
theorem verify_trunc_no_warning_cex :
    ask_password [some "abcdefgh".data, some "abcdefghZZZ".data] [] [] 0 =
      .success "abcdefgh".data [] [] 0 ∧
    8 < "abcdefghZZZ".data.length := by
  decide

/-- C2 (amended): in both batch mode (`read_password`) and interactive
mode (`ask_password`), the form kept for comparison and storage is exactly
the first 8 meaningful bytes of the input; a truncation warning is emitted
for batch input and for the interactive primary prompt exactly when the
input exceeds 8 bytes, while the confirmation (Verify) input is truncated
to 8 bytes silently - its length never changes the warning count. -/
theorem truncation_warning_amended :
    (∀ line, read_password (some line) =
      ⟨true, (stripNewline line).take MAXPWLEN,
        decide (8 < (stripNewline line).length)⟩) ∧
    (∀ (p v : List Char) rest copy gbuf w, ¬ p.length < 6 →
      ask_password (some p :: some v :: rest) copy gbuf w =
        (if v.take MAXPWLEN = p.take MAXPWLEN then
          .success (v.take MAXPWLEN) [] []
            (if 8 < p.length then w + 1 else w)
         else ask_password rest (p.take MAXPWLEN) (v.take MAXPWLEN)
            (if 8 < p.length then w + 1 else w))) := by
  constructor
  · intro line; rfl
  · intro p v rest copy gbuf w h
    rw [ask_password, if_neg h]

/-- C2 witness: a 12-byte primary and a 10-byte confirmation agree on their
first 8 bytes; acquisition succeeds with the 8-byte form and exactly one
warning (for the primary input only). -/
theorem truncation_warning_amended_w :
    ask_password [some "abcdefghLONG".data, some "abcdefghXX".data] [] [] 0 =
      .success "abcdefgh".data [] [] 1 := by
  rw [truncation_warning_amended.2 "abcdefghLONG".data "abcdefghXX".data
    [] [] [] 0 (by decide)]
  decide

/-! ## C3 -/

/-- C3 counterexample: a directory owned by uid 1000 when the process has
real uid 1000 but effective uid 0 passes the guard, although its owner
differs from the process's effective user: line 454 compares `st_uid` with
`getuid()`, the real uid, not with the effective user the claim names. -/
theorem guard_owner_not_euid_cex :
    (mkdir_and_check
        ⟨.ok ⟨true, 1000, 448⟩, .ok (), .ok ⟨true, 1000, 448⟩⟩
        ⟨1000, 0⟩ true).result = GuardResult.ok ∧
    (1000 : Nat) ≠ 0 := by
  decide

/-- C3 (amended): `mkdir_and_check` inspects the path with `lstat` (no
symlink following); a first-inspection failure other than `ENOENT` is
fatal; on `ENOENT` it creates the directory with owner-only permissions
`S_IRWXU` (fatal if creation fails) and never calls `mkdir` otherwise;
it then re-inspects, and verifies in order: re-inspection failure is
fatal, non-directory is fatal, an owner different from the process's REAL
user id (`getuid()`) is fatal, and in strict mode any group/other
permission bit is fatal; only when all checks pass does it return to the
caller (each fatal case is `exit(1)`, before any credential write). -/
theorem mkdir_and_check_amended (fs : Fs) (ids : ProcIds) (strict : Bool) :
    (∀ e, fs.lstat1 = .error e → e ≠ ENOENT →
      mkdir_and_check fs ids strict = ⟨.fatalLstat1, []⟩) ∧
    (fs.lstat1 = .error ENOENT →
      (mkdir_and_check fs ids strict).mkdirCalls = [S_IRWXU]) ∧
    (∀ st1, fs.lstat1 = .ok st1 →
      (mkdir_and_check fs ids strict).mkdirCalls = []) ∧
    (fs.lstat1 = .error ENOENT → ∀ e2, fs.mkdirRes = .error e2 →
      (mkdir_and_check fs ids strict).result = .fatalMkdir) ∧
    (((∃ st1, fs.lstat1 = .ok st1) ∨
      (fs.lstat1 = .error ENOENT ∧ fs.mkdirRes = .ok ())) →
      (mkdir_and_check fs ids strict).result =
        mkdir_and_check_verify fs ids strict) ∧
    (∀ e3, fs.lstat2 = .error e3 →
      mkdir_and_check_verify fs ids strict = .fatalLstat2) ∧
    (∀ st, fs.lstat2 = .ok st →
      (st.st_isdir = false →
        mkdir_and_check_verify fs ids strict = .fatalNotDir) ∧
      (st.st_isdir = true → st.st_uid ≠ ids.ruid →
        mkdir_and_check_verify fs ids strict = .fatalBadOwner) ∧
      (st.st_isdir = true → st.st_uid = ids.ruid → strict = true →
        (S_IRWXG ||| S_IRWXO) &&& st.st_mode ≠ 0 →
        mkdir_and_check_verify fs ids strict = .fatalBadMode) ∧
      (st.st_isdir = true → st.st_uid = ids.ruid →
        (strict = true → (S_IRWXG ||| S_IRWXO) &&& st.st_mode = 0) →
        mkdir_and_check_verify fs ids strict = .ok)) := by
  refine ⟨?_, ?_, ?_, ?_, ?_, ?_, ?_⟩
  · intro e h1 hne
    simp [mkdir_and_check, h1, hne]
  · intro h1
    simp only [mkdir_and_check, h1]
    cases hm : fs.mkdirRes <;> simp [hm]
  · intro st1 h1
    simp [mkdir_and_check, h1]
  · intro h1 e2 h2
    simp [mkdir_and_check, h1, h2]
  · intro hpre
    rcases hpre with ⟨st1, h1⟩ | ⟨h1, hm⟩
    · simp [mkdir_and_check, h1]
    · simp [mkdir_and_check, h1, hm]
  · intro e3 h3
    simp [mkdir_and_check_verify, h3]
  · intro st h2
    refine ⟨?_, ?_, ?_, ?_⟩
    · intro hdir
      simp [mkdir_and_check_verify, h2, hdir]
    · intro hdir huid
      simp [mkdir_and_check_verify, h2, hdir, huid]
    · intro hdir huid hstrict hmode
      simp [mkdir_and_check_verify, h2, hdir, huid, hstrict, hmode]
    · intro hdir huid hmode
      simp only [mkdir_and_check_verify, h2]
      rw [if_neg (by simp [hdir]), if_neg (by simp [huid])]
      rw [if_neg ?_]
      simp only [Bool.and_eq_true, decide_eq_true_eq, not_and]
      intro hs
      simp [hmode hs]

/-- C3 witness: a missing directory is created with mode `S_IRWXU` and,
once re-inspection reports a directory owned by the process's real uid
with strict-clean permission bits, the guard passes. -/
theorem mkdir_and_check_amended_w :
    (mkdir_and_check ⟨.error ENOENT, .ok (), .ok ⟨true, 7, 448⟩⟩
        ⟨7, 9⟩ true).result = GuardResult.ok ∧
    (mkdir_and_check ⟨.error ENOENT, .ok (), .ok ⟨true, 7, 448⟩⟩
        ⟨7, 9⟩ true).mkdirCalls = [S_IRWXU] := by
  have h := mkdir_and_check_amended
    ⟨.error ENOENT, .ok (), .ok ⟨true, 7, 448⟩⟩ ⟨7, 9⟩ true
  constructor
  · rw [h.2.2.2.2.1 (Or.inr ⟨rfl, rfl⟩)]
    exact (h.2.2.2.2.2.2 ⟨true, 7, 448⟩ rfl).2.2.2 rfl rfl (by decide)
  · exact h.2.1 rfl

/-! ## C4 -/

/-- C4 counterexample: the command line `-f -t` combines two of the
mutually exclusive modes, yet the program does not exit with an error: the
`-t` handling simply overwrites the variables `-f` had set, so the run
proceeds as if only `-t` had been given (here with `HOME=/home/u`,
`USER=u`). -/
theorem modes_ft_not_rejected_cex :
    vncpasswd_main ["-f", "-t"] (some "/home/u") (some "u") =
      .runPasswd false true true false "/tmp/u-vnc" "/tmp/u-vnc/passwd" ∧
    isErrorExit (vncpasswd_main ["-f", "-t"] (some "/home/u") (some "u")) =
      false := by
  decide

/-- C4 (amended): combining `-o`/`-c` with `-f`, with a `/tmp`-prefixed
password directory (which `-t` produces), or with `-a`/`-r`, and combining
`-a`/`-r` with `-f` or with a `/tmp`-prefixed password directory, makes
`main` exit non-zero before any password is read, any directory is created
or any property is written; but combining `-f` with `-t` is NOT rejected:
the flag given later silently overrides the earlier one, so `-f -t`
proceeds exactly as `-t` alone and `-t -f` exactly as `-f` alone. -/
theorem mode_exclusivity_amended (args : List String)
    (envHOME envUSER : Option String) (home u : String) (cfg : Config)
    (rest : List String)
    (hh : getenv_safe envHOME 240 = .ok home)
    (hu : getenv_safe envUSER 32 = .ok u)
    (hp : parseLoop envUSER args (initConfig home) = .done cfg rest) :
    (cfg.otp = true →
      (cfg.read_from_stdin = true ∨ startsWithTmp cfg.passwdDir = true ∨
        cfg.userList = true) →
      isErrorExit (vncpasswd_main args envHOME envUSER) = true) ∧
    (cfg.otp = false → cfg.userList = true →
      (cfg.read_from_stdin = true ∨ startsWithTmp cfg.passwdDir = true) →
      isErrorExit (vncpasswd_main args envHOME envUSER) = true) ∧
    vncpasswd_main ["-f", "-t"] envHOME envUSER =
      .runPasswd false true true false ("/tmp/" ++ u ++ "-vnc")
        ("/tmp/" ++ u ++ "-vnc" ++ "/passwd") ∧
    vncpasswd_main ["-t", "-f"] envHOME envUSER =
      .runPasswd true false false false ("/tmp/" ++ u ++ "-vnc") "-" := by
  have hmain : vncpasswd_main args envHOME envUSER =
      vncpasswd_dispatch cfg rest := by
    rw [vncpasswd_main_ok args envHOME envUSER home hh, hp]
  have stepT : ∀ (l : List String) (c : Config),
      parseLoop envUSER ("-t" :: l) c =
        parseLoop envUSER l
          { c with passwdDir := "/tmp/" ++ u ++ "-vnc",
                   passwdFile := "/tmp/" ++ u ++ "-vnc" ++ "/passwd",
                   read_from_stdin := false, make_directory := true,
                   check_strictly := true } := by
    intro l c
    show (match getenv_safe envUSER 32 with
          | .error m => ParseResult.fatalEnv m
          | .ok u2 => parseLoop envUSER l { c with passwdDir := "/tmp/" ++ u2 ++ "-vnc", passwdFile := "/tmp/" ++ u2 ++ "-vnc" ++ "/passwd", read_from_stdin := false, make_directory := true, check_strictly := true }) = _
    rw [hu]
  refine ⟨?_, ?_, ?_, ?_⟩
  · intro hOtp hconf
    rw [hmain]
    by_cases hr : cfg.read_from_stdin
    · simp [vncpasswd_dispatch, hOtp, hr, isErrorExit]
    · by_cases ht : startsWithTmp cfg.passwdDir
      · simp [vncpasswd_dispatch, hOtp, hr, ht, isErrorExit]
      · have hul : cfg.userList = true := by
          rcases hconf with h | h | h
          · exact absurd h (by simp [hr])
          · exact absurd h (by simp [ht])
          · exact h
        simp [vncpasswd_dispatch, hOtp, hr, ht, hul, isErrorExit]
  · intro hOtp hul hconf
    rw [hmain]
    by_cases hr : cfg.read_from_stdin
    · simp [vncpasswd_dispatch, hOtp, hul, hr, isErrorExit]
    · have ht : startsWithTmp cfg.passwdDir = true := by
        rcases hconf with h | h
        · exact absurd h (by simp [hr])
        · exact h
      simp [vncpasswd_dispatch, hOtp, hul, hr, ht, isErrorExit]
  · rw [vncpasswd_main_ok ["-f", "-t"] envHOME envUSER home hh]
    rw [show parseLoop envUSER ["-f", "-t"] (initConfig home) = parseLoop envUSER ["-t"] { initConfig home with passwdFile := "-", read_from_stdin := true, make_directory := false, check_strictly := false } from rfl]
    rw [stepT]
    rfl
  · rw [vncpasswd_main_ok ["-t", "-f"] envHOME envUSER home hh]
    rw [stepT]
    rfl

/-- C4 witness: `-o -f` is rejected with a non-zero error exit. -/
theorem mode_exclusivity_amended_w :
    isErrorExit (vncpasswd_main ["-o", "-f"] (some "/home/u") (some "u")) =
      true := by
  have h := mode_exclusivity_amended ["-o", "-f"] (some "/home/u") (some "u")
    "/home/u" "u"
    { displayname := none, otp := true, otpClear := false, userList := false,
      addUser := false, user := none, alsoView := false,
      read_from_stdin := true, make_directory := false,
      check_strictly := false, passwdDir := "/home/u/.vnc",
      passwdFile := "-" }
    [] (by decide) (by decide) (by decide)
  exact h.1 (by decide) (Or.inl (by decide))

/-! ## C5 -/

/-- C5: the claim that every in-memory copy of the generated plaintext OTP
digits is zeroed immediately after transmission is CONTRADICTED by `DoOTP`:
with drawn value 12345678 (non-clear mode, primary only) the payload is
transmitted under `VNC_OTP` and `memset` zeroes `bytes` (line 148), but
the staging buffer `buf`, into which the digits were formatted by
`snprintf` (line 124), still holds the plaintext "12345678" when the
function returns - it is never zeroed. -/
theorem do_otp_buf_residue :
    (DoOTP false false true true 12345678 0 [] []).events =
      [.connect, .changeProperty "VNC_OTP" "12345678".data, .closeDisplay] ∧
    (DoOTP false false true true 12345678 0 [] []).bufFinal =
      "12345678".data ∧
    "12345678".data ≠ List.replicate 8 (Char.ofNat 0) := by
  decide

/-! ## C6 -/

/-- C6 counterexample: with drawn 32-bit value 100000000 (nine decimal
digits), the transmitted 8-byte half is "10000000", which decodes to
10000000, not to the drawn value: `snprintf(buf, 9, "%08u", full)` keeps
only the first 8 characters, so the half is not "a zero-padded 8-digit
decimal rendering of the drawn 32-bit random value" as the claim states
(any such rendering would decode back to the value). -/
theorem otp_not_decimal_rendering_cex :
    (DoOTP false false true true 100000000 0 [] []).events =
      [.connect, .changeProperty "VNC_OTP" "10000000".data, .closeDisplay] ∧
    ("10000000".data).length = 8 ∧
    digitsVal "10000000".data = 10000000 ∧
    digitsVal "10000000".data ≠ 100000000 := by
  decide

/-- C6 (amended): in clear mode the `VNC_OTP` payload is exactly empty;
with a primary OTP only it is exactly the 8 bytes printed as the
full-control value; with primary plus secondary it is exactly 16 bytes,
the first 8 equal to the printed full-control value and the last 8 equal
to the printed view-only value; each half is 8 ASCII digit bytes, namely
the first 8 characters of the `%08u` zero-padded decimal rendering of the
drawn value: for values below `10^8` this decodes back to the drawn value,
while for larger values only the 8 most significant decimal digits are
kept. -/
theorem otp_payload_amended (alsoView : Bool) (full view : Nat)
    (buf0 bytes0 : List Char) :
    (DoOTP true alsoView true true full view buf0 bytes0).events =
      [.connect, .changeProperty "VNC_OTP" [], .closeDisplay] ∧
    (DoOTP false false true true full view buf0 bytes0).events =
      [.connect, .changeProperty "VNC_OTP" (decimal8 full), .closeDisplay] ∧
    (DoOTP false false true true full view buf0 bytes0).printedFull =
      some (decimal8 full) ∧
    (DoOTP false true true true full view buf0 bytes0).events =
      [.connect,
       .changeProperty "VNC_OTP" (decimal8 full ++ decimal8 view),
       .closeDisplay] ∧
    (DoOTP false true true true full view buf0 bytes0).printedFull =
      some (decimal8 full) ∧
    (DoOTP false true true true full view buf0 bytes0).printedView =
      some (decimal8 view) ∧
    (decimal8 full).length = 8 ∧
    (decimal8 full ++ decimal8 view).length = 16 ∧
    (∀ c ∈ decimal8 full, 48 ≤ c.toNat ∧ c.toNat ≤ 57) ∧
    (full < 10 ^ 8 → digitsVal (decimal8 full) = full) ∧
    (full < 10 ^ 10 → digitsVal (decDigits full) = full) ∧
    (10 ^ 8 ≤ full → full < 10 ^ 10 →
      decimal8 full = (decDigits full).take 8) := by
  refine ⟨rfl, rfl, rfl, rfl, rfl, rfl, decimal8_length full, ?_, ?_, ?_,
    ?_, ?_⟩
  · simp [decimal8_length]
  · exact decimal8_digits full
  · exact digitsVal_decimal8 full
  · exact digitsVal_decDigits full
  · exact decimal8_high full

/-- C6 witness: values 12345678 and 87654321 give the 16-byte payload
"1234567887654321", and the first half decodes back to the drawn value. -/
theorem otp_payload_amended_w :
    (DoOTP false true true true 12345678 87654321 [] []).events =
      [.connect,
       .changeProperty "VNC_OTP" ("12345678".data ++ "87654321".data),
       .closeDisplay] ∧
    digitsVal (decimal8 12345678) = 12345678 := by
  have h := otp_payload_amended true 12345678 87654321 [] []
  obtain ⟨-, -, -, h4, -, -, -, -, -, h10, -, -⟩ := h
  exact ⟨h4.trans (by decide), h10 (by norm_num)⟩

/-! ## C7 -/

/-- C7: for every username of 1 to 63 bytes the `VNC_ACL` payload is
exactly one flag byte - bit 0 set for add and clear for remove, bit 4 set
for view-only and clear for full control - followed by the raw username
bytes, written after the display connection succeeds; a NULL or empty
username, or one longer than 63 bytes, is rejected fatally before
`XOpenDisplay` is ever called (the event trace is empty). -/
theorem acl_payload_and_validation (u : List Nat)
    (addUser alsoView dOpen atomEx : Bool) :
    (1 ≤ u.length → u.length ≤ MAXUSERLEN →
      DoUserList (some u) addUser alsoView true true =
        (.ok, [.connect,
               .changeProperty "VNC_ACL"
                 (((if addUser then 1 else 0) |||
                   (if alsoView then 16 else 0)) :: u),
               .closeDisplay])) ∧
    ((((if addUser then 1 else 0) |||
       (if alsoView then 16 else 0)) : Nat).testBit 0 = addUser ∧
     (((if addUser then 1 else 0) |||
       (if alsoView then 16 else 0)) : Nat).testBit 4 = alsoView) ∧
    (u.length = 0 →
      DoUserList (some u) addUser alsoView dOpen atomEx =
        (.errMissingUser, [])) ∧
    (MAXUSERLEN < u.length →
      DoUserList (some u) addUser alsoView dOpen atomEx =
        (.errUserTooLong, [])) ∧
    DoUserList none addUser alsoView dOpen atomEx = (.errMissingUser, []) := by
  refine ⟨?_, ?_, ?_, ?_, rfl⟩
  · intro h1 h2
    have h0 : ¬ u.length = 0 := by omega
    have h63 : ¬ MAXUSERLEN < u.length := by omega
    simp [DoUserList, h0, h63]
  · constructor <;> (cases addUser <;> cases alsoView <;> decide)
  · intro h0
    simp [DoUserList, h0]
  · intro h63
    have h0 : ¬ u.length = 0 := by unfold MAXUSERLEN at h63; omega
    simp [DoUserList, h0, h63]

/-- C7 witness: add + view-only + username "alice" yields the payload
`0x11` followed by the bytes of "alice". -/
theorem acl_payload_and_validation_w :
    DoUserList (some [97, 108, 105, 99, 101]) true true true true =
      (.ok, [.connect,
             .changeProperty "VNC_ACL" [17, 97, 108, 105, 99, 101],
             .closeDisplay]) := by
  have h := (acl_payload_and_validation [97, 108, 105, 99, 101]
    true true true true).1 (by decide) (by decide)
  exact h.trans (by decide)

/-! ## C8 -/

/-- C8: in batch mode, end of stream before any primary secret is read
makes the whole operation fail hard (`main_batch` is `none`, the
"Could not read password" `exit(1)` of line 350), while end of stream
after the primary secret but before a secondary one yields success with
the primary secret (newline-stripped, truncated to 8 bytes) and no
secondary secret. -/
theorem batch_eof_semantics :
    main_batch [] = none ∧
    ∀ l1, main_batch [l1] = some ((stripNewline l1).take MAXPWLEN, none) :=
  ⟨rfl, fun _ => rfl⟩

/-! ## C9 -/

/-- C9 counterexample: the answer byte 0 (NUL) is treated as affirmative
by the view-only question although its first character is neither `y` nor
`Y`: `strchr("Yy", '\0')` finds the terminating NUL of the searched string
and returns a non-NULL pointer. -/
theorem yesno_nul_cex :
    view_only_answer (some (Char.ofNat 0)) = true ∧
    Char.ofNat 0 ≠ 'y' ∧ Char.ofNat 0 ≠ 'Y' := by
  decide

/-- C9 (amended): in interactive mode without the view-only flag, the
answer to the view-only question is treated as affirmative exactly when
its first byte is `y`, `Y`, or NUL (the `strchr` search over "Yy" also
matches the string's terminating NUL); end of stream (a NULL `fgets`) is
not affirmative. -/
theorem yesno_affirmative_amended :
    view_only_answer none = false ∧
    ∀ c, (view_only_answer (some c) = true ↔
      (c = 'y' ∨ c = 'Y' ∨ c = Char.ofNat 0)) := by
  refine ⟨rfl, fun c => ?_⟩
  show strchr_found ['Y', 'y'] c = true ↔ _
  unfold strchr_found
  simp [List.contains, List.elem_iff]
  tauto

/-! ## C10 -/

/-- C10: the `-t`/`-o` incompatibility check tests whether the computed
password-directory path begins with the four bytes "/tmp" rather than
whether `-t` was given: for every environment whose `HOME` value begins
with "/tmp" (and passes `getenv_safe`), invoking OTP mode as `-o`, `-c`
or `-o -v` without `-t` exits non-zero with the "-t is incompatible with
-o" error, and no OTP is issued (the outcome is `fatal`, so `DoOTP` is
never reached). -/
theorem home_tmp_blocks_otp (envHOME envUSER : Option String) (home : String)
    (hh : getenv_safe envHOME 240 = .ok home)
    (h4 : home.data.take 4 = "/tmp".data) :
    vncpasswd_main ["-o"] envHOME envUSER =
      .fatal "-t is incompatible with -o" ∧
    vncpasswd_main ["-c"] envHOME envUSER =
      .fatal "-t is incompatible with -o" ∧
    vncpasswd_main ["-o", "-v"] envHOME envUSER =
      .fatal "-t is incompatible with -o" := by
  have hT := startsWithTmp_append home "/.vnc" h4
  refine ⟨?_, ?_, ?_⟩
  · rw [vncpasswd_main_ok ["-o"] envHOME envUSER home hh]
    rw [show parseLoop envUSER ["-o"] (initConfig home) = .done { initConfig home with otp := true, make_directory := false } [] from rfl]
    show vncpasswd_dispatch { initConfig home with otp := true, make_directory := false } [] = _
    simp [vncpasswd_dispatch, initConfig, hT]
  · rw [vncpasswd_main_ok ["-c"] envHOME envUSER home hh]
    rw [show parseLoop envUSER ["-c"] (initConfig home) = .done { initConfig home with otp := true, otpClear := true, make_directory := false } [] from rfl]
    show vncpasswd_dispatch { initConfig home with otp := true, otpClear := true, make_directory := false } [] = _
    simp [vncpasswd_dispatch, initConfig, hT]
  · rw [vncpasswd_main_ok ["-o", "-v"] envHOME envUSER home hh]
    rw [show parseLoop envUSER ["-o", "-v"] (initConfig home) = .done { initConfig home with otp := true, make_directory := false, alsoView := true } [] from rfl]
    show vncpasswd_dispatch { initConfig home with otp := true, make_directory := false, alsoView := true } [] = _
    simp [vncpasswd_dispatch, initConfig, hT]

/-- C10 witness: `HOME=/tmp/u` makes plain `-o` fail with the `-t`
incompatibility error. -/
theorem home_tmp_blocks_otp_w :
    vncpasswd_main ["-o"] (some "/tmp/u") none =
      .fatal "-t is incompatible with -o" :=
  (home_tmp_blocks_otp (some "/tmp/u") none "/tmp/u" (by decide)
    (by decide)).1
